import Mathlib

/-!
# Catalog browser (`src/js/app.js`): a shallow embedding

The program is one browser script.  It loads a product list, renders one card
per product, filters the list by an accent-insensitive substring search and,
for products without a local image, scrapes social-preview meta tags from the
product page.

Modelling choices, once for the whole file.

* A JavaScript string is a Lean `String` (a sequence of Unicode code points).
* A product field that is absent (`undefined`/`null`) is `none`.
* Browser built-ins the script calls but does not define (`String.normalize`,
  `\p{Diacritic}`, `toLowerCase`, `fetch`, `DOMParser`, `querySelector`,
  `new URL`, `encodeURIComponent`, `window.CONFIG`) are fields of the
  structures `Unicode` and `Web`; theorems quantify over them.  The instances
  `latin` and `demoWeb` make every definition evaluable on concrete inputs.
* A promise is its settled outcome, an `Except JSError` value (`error` is a
  rejection); the targets passed to `fetch` are recorded in a list.
-/

namespace Store

/-! ## JavaScript values used by the script -/

/-- Truthiness of a string-or-absent value: `undefined`, `null` and `""` are falsy. -/
def truthy : Option String → Bool
  | none => false
  | some s => s != ""

/-- The expression `v || d` for a string-or-absent `v` and a string default `d`. -/
def orElse (v : Option String) (d : String) : String :=
  match v with
  | none => d
  | some s => if s != "" then s else d

/-- The method `String.prototype.includes` on code-point lists: is there a position of the
haystack at which the needle starts. -/
def includesFrom (needle : List Char) : List Char → Bool
  | [] => needle.isPrefixOf []
  | c :: cs => needle.isPrefixOf (c :: cs) || includesFrom needle cs

/-- The call `s.includes(search)`. -/
def includes (s search : String) : Bool :=
  includesFrom search.data s.data

/-! ## Unicode built-ins -/

/-- The three Unicode built-ins `normalizeString` calls, with the two facts about the empty
string that ECMAScript guarantees for them. -/
structure Unicode where
  /-- The call `s.normalize("NFD")`. -/
  nfd : String → String
  /-- The property `\p{Diacritic}` on one code point. -/
  isDiacritic : Char → Bool
  /-- The call `s.toLowerCase()`. -/
  toLowerCase : String → String
  nfd_empty : nfd "" = ""
  toLowerCase_empty : toLowerCase "" = ""

/-- The call `s.replace(/\p{Diacritic}/gu, "")`: every code point with the property is
dropped, the others stay in order. -/
def removeDiacritics (U : Unicode) (s : String) : String :=
  String.mk (s.data.filter (fun c => !U.isDiacritic c))

/-- Source `normalizeString` (lines 15-20):
`(str || "").normalize("NFD").replace(/\p{Diacritic}/gu, "").toLowerCase()`. -/
def normalizeString (U : Unicode) (str : Option String) : String :=
  U.toLowerCase (removeDiacritics U (U.nfd (orElse str "")))

/-! ### A concrete instance for Basic Latin and Latin-1

`latin` agrees with Unicode on strings whose code points are at most U+00FF; other code
points pass through unchanged. -/

/-- Canonical decompositions of the Latin-1 letters: code point, base letter, combining mark. -/
def latin1Decompositions : List (Nat × Nat × Nat) :=
  [ (0xC0, 0x41, 0x300), (0xC1, 0x41, 0x301), (0xC2, 0x41, 0x302), (0xC3, 0x41, 0x303),
    (0xC4, 0x41, 0x308), (0xC5, 0x41, 0x30A), (0xC7, 0x43, 0x327),
    (0xC8, 0x45, 0x300), (0xC9, 0x45, 0x301), (0xCA, 0x45, 0x302), (0xCB, 0x45, 0x308),
    (0xCC, 0x49, 0x300), (0xCD, 0x49, 0x301), (0xCE, 0x49, 0x302), (0xCF, 0x49, 0x308),
    (0xD1, 0x4E, 0x303),
    (0xD2, 0x4F, 0x300), (0xD3, 0x4F, 0x301), (0xD4, 0x4F, 0x302), (0xD5, 0x4F, 0x303),
    (0xD6, 0x4F, 0x308),
    (0xD9, 0x55, 0x300), (0xDA, 0x55, 0x301), (0xDB, 0x55, 0x302), (0xDC, 0x55, 0x308),
    (0xDD, 0x59, 0x301),
    (0xE0, 0x61, 0x300), (0xE1, 0x61, 0x301), (0xE2, 0x61, 0x302), (0xE3, 0x61, 0x303),
    (0xE4, 0x61, 0x308), (0xE5, 0x61, 0x30A), (0xE7, 0x63, 0x327),
    (0xE8, 0x65, 0x300), (0xE9, 0x65, 0x301), (0xEA, 0x65, 0x302), (0xEB, 0x65, 0x308),
    (0xEC, 0x69, 0x300), (0xED, 0x69, 0x301), (0xEE, 0x69, 0x302), (0xEF, 0x69, 0x308),
    (0xF1, 0x6E, 0x303),
    (0xF2, 0x6F, 0x300), (0xF3, 0x6F, 0x301), (0xF4, 0x6F, 0x302), (0xF5, 0x6F, 0x303),
    (0xF6, 0x6F, 0x308),
    (0xF9, 0x75, 0x300), (0xFA, 0x75, 0x301), (0xFB, 0x75, 0x302), (0xFC, 0x75, 0x308),
    (0xFD, 0x79, 0x301), (0xFF, 0x79, 0x308) ]

/-- Canonical decomposition of one code point. -/
def latinDecompose (c : Char) : List Char :=
  match latin1Decompositions.lookup c.toNat with
  | some (base, mark) => [Char.ofNat base, Char.ofNat mark]
  | none => [c]

/-- Code points with the property Diacritic: the seven of Basic Latin and Latin-1, and the
combining marks U+0300..U+034E, U+0350..U+0357, U+035D..U+0362. -/
def latinIsDiacritic (c : Char) : Bool :=
  let n := c.toNat
  n == 0x5E || n == 0x60 || n == 0xA8 || n == 0xAF || n == 0xB4 || n == 0xB7 || n == 0xB8
    || (0x300 ≤ n && n ≤ 0x34E) || (0x350 ≤ n && n ≤ 0x357) || (0x35D ≤ n && n ≤ 0x362)

/-- Lower-casing of one code point: A..Z and the Latin-1 capitals (all of U+00C0..U+00DE
but the multiplication sign) move up by 32. -/
def latinLower (c : Char) : Char :=
  let n := c.toNat
  if (0x41 ≤ n && n ≤ 0x5A) || (0xC0 ≤ n && n ≤ 0xDE && n != 0xD7) then Char.ofNat (n + 32)
  else c

/-- The Unicode built-ins on Basic Latin and Latin-1. -/
def latin : Unicode where
  nfd s := String.mk (s.data.flatMap latinDecompose)
  isDiacritic := latinIsDiacritic
  toLowerCase s := String.mk (s.data.map latinLower)
  nfd_empty := rfl
  toLowerCase_empty := rfl

/-! ## Data model -/

/-- A product record of the catalog: every field is a string or absent. -/
structure Product where
  name : Option String := none
  store : Option String := none
  link : Option String := none
  image : Option String := none
  deriving DecidableEq, Repr

/-- An element of a JSON array, in the two shapes this development covers: `null`, or an
object whose `name`, `store`, `link` and `image` members are strings or absent.  Elements
of other shapes (numbers, strings, nested arrays, objects with members of other types) are
not modelled. -/
inductive Item where
  | null
  | product (p : Product)
  deriving DecidableEq, Repr

/-- A decoded JSON document, the value `res.json()` resolves to and `PRODUCTS` holds.  The
script reads nothing of a value that is not an array, so those carry no members. -/
inductive Json where
  | null
  | bool (b : Bool)
  | num (n : Int)
  | str (s : String)
  | object
  | arr (items : List Item)
  deriving DecidableEq, Repr

/-- A thrown JavaScript value. -/
inductive JSError where
  /-- A `TypeError` raised by the engine. -/
  | typeError (msg : String)
  /-- The value `new Error(msg + status)` thrown by the script. -/
  | error (msg : String) (status : Nat)
  /-- The rejection of `fetch` itself (no response). -/
  | network
  /-- The rejection of `res.json()` on a body that is not JSON. -/
  | syntaxError
  deriving DecidableEq, Repr

deriving instance DecidableEq for Except

/-- The property `Response.ok`: the status is in 200..299. -/
def statusOk (status : Nat) : Bool :=
  200 ≤ status && status ≤ 299

/-- Outcome of `fetch("src/db/products.json")`: a rejection, or a response with its status
and the outcome of `res.json()`. -/
inductive CatalogFetch where
  | networkError
  | response (status : Nat) (json : Except JSError Json)

/-- Outcome of `fetch(target)` for a product page: a rejection, or a response with its
status and the outcome of `r.text()`. -/
inductive PageFetch where
  | networkError
  | response (status : Nat) (text : Except JSError String)

/-- An element found by `querySelector`. -/
structure Node where
  attrs : List (String × String)
  textContent : String
  deriving DecidableEq, Repr

/-- The call `node.getAttribute(name)`; `none` is `null`. -/
def Node.getAttribute (node : Node) (name : String) : Option String :=
  node.attrs.lookup name

/-- A parsed document, seen through `doc.querySelector`. -/
structure Document where
  querySelector : String → Option Node

/-- The browser around the script. -/
structure Web where
  /-- The value of `window.CONFIG && window.CONFIG.CORS_PROXY`. -/
  corsProxy : Option String
  encodeURIComponent : String → String
  /-- The outcome of `fetch(target, { method: "GET" })`. -/
  fetch : String → PageFetch
  /-- The call `new DOMParser().parseFromString(text, "text/html")`. -/
  parseFromString : String → Document
  /-- The value `new URL(image, link).href`; `none` when the constructor throws. -/
  resolveURL : String → Option String → Option String

/-- The record `metas` returned by `fetchSeoMeta`. -/
structure MetaInfo where
  image : Option String
  price : Option String
  description : Option String
  deriving DecidableEq, Repr

/-! ## Catalog loader -/

/-- The `try` block of `loadProducts` (lines 25-28): the value assigned to `PRODUCTS`, or
what is thrown. -/
def loadProductsTry : CatalogFetch → Except JSError Json
  | .networkError => throw JSError.network
  | .response status json =>
    if !statusOk status then throw (JSError.error "Erro ao carregar products.json: " status)
    else json

/-- Source `loadProducts` (lines 23-33): the value of `PRODUCTS` once the returned promise
settles, or the rejection.  The `catch` block logs and assigns `[]`. -/
def loadProducts (f : CatalogFetch) : Except JSError Json :=
  tryCatch (loadProductsTry f) (fun _err => pure (Json.arr []))

/-! ## Meta scraper -/

/-- The expression `a || b` on string-or-null operands. -/
def por (a b : Option String) : Option String :=
  if truthy a then a else b

/-- Source `pickContent` (lines 155-168). -/
def pickContent (doc : Document) : List String → Option String
  | [] => none
  | sel :: rest =>
    match doc.querySelector sel with
    | some node =>
      por (node.getAttribute "content")
        (por (node.getAttribute "value") (por (some node.textContent) none))
    | none => pickContent doc rest

/-- Selector list of `metas.image` (lines 170-176). -/
def imageSelectors : List String :=
  [ "meta[property=\"og:image\"]",
    "meta[name=\"og:image\"]",
    "meta[name=\"twitter:image\"]",
    "meta[property=\"twitter:image\"]",
    "link[rel=\"image_src\"]" ]

/-- Selector list of `metas.price` (lines 178-183). -/
def priceSelectors : List String :=
  [ "meta[property=\"product:price:amount\"]",
    "meta[property=\"og:price:amount\"]",
    "meta[name=\"twitter:data1\"]",
    "meta[itemprop=\"price\"]" ]

/-- Selector list of `metas.description` (lines 185-189). -/
def descriptionSelectors : List String :=
  [ "meta[property=\"og:description\"]",
    "meta[name=\"description\"]",
    "meta[name=\"twitter:description\"]" ]

/-- The three `pickContent` calls of `fetchSeoMeta` on a parsed document (lines 153-191). -/
def extractMetas (doc : Document) : MetaInfo :=
  { image := pickContent doc imageSelectors
    price := pickContent doc priceSelectors
    description := pickContent doc descriptionSelectors }

/-- What a call of `fetchSeoMeta` did: the targets it passed to `fetch`, in order, and how
its promise settled (`none` is `null`). -/
structure Scrape where
  requests : List String
  outcome : Except JSError (Option MetaInfo)

/-- The `target` of `fetchSeoMeta` (lines 142-146): the link itself, or the proxy followed
by the encoded link when a proxy is configured. -/
def scrapeTarget (W : Web) (url : String) : String :=
  let proxy := orElse W.corsProxy ""
  if proxy != "" then proxy ++ W.encodeURIComponent url else url

/-- Source `fetchSeoMeta` (lines 139-195).  The `catch` block rethrows, so it is omitted. -/
def fetchSeoMeta (W : Web) (url : Option String) : Scrape :=
  match url with
  | none => { requests := [], outcome := pure none }
  | some url =>
    if url == "" then { requests := [], outcome := pure none }
    else
      let target := scrapeTarget W url
      match W.fetch target with
      | .networkError => { requests := [target], outcome := throw JSError.network }
      | .response status text =>
        if !statusOk status then
          { requests := [target], outcome := throw (JSError.error "fetch erro " status) }
        else
          { requests := [target]
            outcome := do
              let text ← text
              let doc := W.parseFromString text
              pure (some (extractMetas doc)) }

/-! ## Card renderer -/

/-- The `img` element put into a thumbnail (class and inline style are constant and left out). -/
structure Img where
  src : String
  alt : String
  deriving DecidableEq, Repr

/-- Content of the thumbnail: a text label or an image. -/
inductive Thumb where
  | text (label : String)
  | img (i : Img)
  deriving DecidableEq, Repr

/-- The `article.card` element: its children are the thumbnail, the `h3` title, the
`div.meta` store label, an optional `div.meta` price line, and the action row. -/
structure Card where
  thumb : Thumb
  title : String
  store : String
  price : Option String
  /-- The `href` of the primary link of the action row. -/
  href : String
  /-- The text shown by `alert` when the secondary action is clicked. -/
  details : String
  deriving DecidableEq, Repr

/-- What `createCard` did: the card it returned, the card once the promise chain of the
thumbnail has settled (`error` is an unhandled rejection), the arguments of the
`fetchSeoMeta` calls and the targets passed to `fetch`. -/
structure CardRun where
  returned : Card
  settled : Except JSError Card
  scrapeCalls : List (Option String)
  requests : List String
  deriving DecidableEq, Repr

/-- The `.then` callback of `createCard` (lines 99-125). -/
def onScraped (W : Web) (product : Product) (card : Card) (data : Option MetaInfo) : Card :=
  let image := data.bind (fun d => d.image)
  let price := data.bind (fun d => d.price)
  let card :=
    match image with
    | some src =>
      if src != "" then
        { card with
          thumb := Thumb.img
            { alt := orElse product.name "Produto"
              src := (W.resolveURL src product.link).getD src } }
      else { card with thumb := Thumb.text "Sem imagem (uso manual)" }
    | none => { card with thumb := Thumb.text "Sem imagem (uso manual)" }
  match price with
  | some amount =>
    if amount != "" then { card with price := some ("Preço (capturado): " ++ amount) } else card
  | none => card

/-- The `.catch` callback of `createCard` (lines 126-132). -/
def onScrapeFailed (card : Card) (_err : JSError) : Card :=
  { card with thumb := Thumb.text "Imagem indisponível (CORS)" }

/-- The card as built by lines 45-83 of `createCard`: loading label, title, store label
and action row. -/
def blankCard (product : Product) : Card :=
  { thumb := Thumb.text "Carregando imagem..."
    title := orElse product.name "Produto sem nome"
    store := orElse product.store ""
    price := none
    href := orElse product.link "#"
    details := orElse product.name "Produto" ++ "\n" ++ orElse product.link "Sem link" }

/-- Source `createCard` (lines 44-136). -/
def createCard (W : Web) (product : Product) : CardRun :=
  let card := blankCard product
  if truthy product.image then
    let card :=
      { card with
        thumb := Thumb.img
          { alt := orElse product.name "Produto"
            src := "src/img/" ++ orElse product.image "" } }
    { returned := card, settled := pure card, scrapeCalls := [], requests := [] }
  else
    let scrape := fetchSeoMeta W product.link
    { returned := card
      settled :=
        tryCatch (scrape.outcome >>= fun data => pure (onScraped W product card data))
          (fun err => pure (onScrapeFailed card err))
      scrapeCalls := [product.link]
      requests := scrape.requests }

/-- Content of the results container after `render`. -/
inductive Results where
  /-- Markup assigned to `innerHTML`. -/
  | html (markup : String)
  /-- The cards appended, in order. -/
  | cards (runs : List CardRun)
  deriving DecidableEq, Repr

/-- The markup shown for an empty or non-array list (line 202). -/
def noProductsMarkup : String :=
  "<p class=\"footer-note\">Nenhum produto encontrado.</p>"

/-- The call `createCard(p)` on an array element: reading `product.name` of `null` throws. -/
def createCardOf (W : Web) : Item → Except JSError CardRun
  | .null => throw (JSError.typeError "Cannot read properties of null (reading 'name')")
  | .product p => pure (createCard W p)

/-- The loop of `render` (lines 206-208). -/
def renderCards (W : Web) : List Item → Except JSError (List CardRun)
  | [] => pure []
  | p :: rest => do
    let card ← createCardOf W p
    let cards ← renderCards W rest
    pure (card :: cards)

/-- Source `render` (lines 198-210); the page is assumed to hold the `#results` element. -/
def render (W : Web) (list : Json) : Except JSError Results :=
  match list with
  | .arr items =>
    if items.length == 0 then pure (Results.html noProductsMarkup)
    else do
      let runs ← renderCards W items
      pure (Results.cards runs)
  | _ => pure (Results.html noProductsMarkup)

/-! ## Filter -/

/-- The call `PRODUCTS.filter((p) => normalizeString(p.name).includes(query))` on an array
(lines 219-221): reading `p.name` of `null` throws. -/
def filterItems (U : Unicode) (query : String) : List Item → Except JSError (List Item)
  | [] => pure []
  | .null :: _ => throw (JSError.typeError "Cannot read properties of null (reading 'name')")
  | .product p :: rest => do
    let keep := includes (normalizeString U p.name) query
    let kept ← filterItems U query rest
    pure (if keep then Item.product p :: kept else kept)

/-- The argument `applyFilter(q)` passes to `render` (lines 214-221), or what is thrown
before the call: a value that is not an array has no callable `filter`. -/
def filtered (U : Unicode) (PRODUCTS : Json) (q : Option String) : Except JSError Json :=
  let query := normalizeString U q
  if query == "" then pure PRODUCTS
  else
    match PRODUCTS with
    | .arr items => do
      let kept ← filterItems U query items
      pure (Json.arr kept)
    | _ => throw (JSError.typeError "PRODUCTS.filter is not a function")

/-- Source `applyFilter` (lines 213-223). -/
def applyFilter (U : Unicode) (W : Web) (PRODUCTS : Json) (q : Option String) :
    Except JSError Results :=
  filtered U PRODUCTS q >>= render W

/-- Source `init` (lines 233-236): `await loadProducts(); render(PRODUCTS)`. -/
def init (W : Web) (f : CatalogFetch) : Except JSError Results :=
  loadProducts f >>= render W

/-! ## A concrete browser for evaluation -/

/-- An element of a concrete document: its tag name and what the script reads of it. -/
structure Element where
  tag : String
  node : Node
  deriving DecidableEq, Repr

/-- Does the element match a selector of the shape `tag[attr="value"]`. -/
def Element.isMatch (sel : String) (el : Element) : Bool :=
  el.node.attrs.any (fun av => sel == el.tag ++ ("[" ++ (av.1 ++ ("=\"" ++ (av.2 ++ "\"]")))))

/-- The document whose elements are `els`, in tree order: `querySelector` returns the first
element that matches. -/
def Document.ofElements (els : List Element) : Document :=
  { querySelector := fun sel => (els.find? (Element.isMatch sel)).map (fun el => el.node) }

/-- The element `<meta property="og:image" content="a.jpg">`. -/
def ogImageMeta : Element :=
  { tag := "meta", node := { attrs := [("property", "og:image"), ("content", "a.jpg")], textContent := "" } }

/-- The element `<meta name="twitter:image" content="t.jpg">`. -/
def twitterImageMeta : Element :=
  { tag := "meta", node := { attrs := [("name", "twitter:image"), ("content", "t.jpg")], textContent := "" } }

/-- The element `<meta property="og:image">`, without content. -/
def bareOgImageMeta : Element :=
  { tag := "meta", node := { attrs := [("property", "og:image")], textContent := "" } }

/-- The element `<link rel="image_src" href=U>`. -/
def imageSrcLink (U : String) : Element :=
  { tag := "link", node := { attrs := [("rel", "image_src"), ("href", U)], textContent := "" } }

/-- The body of a page with one meta tag. -/
def ogImagePage : String :=
  "<html><head><meta property=\"og:image\" content=\"a.jpg\"></head><body></body></html>"

/-- A browser with no proxy and three pages: one with an `og:image` meta tag, one without
meta tags, one answering 404; any other target is unreachable. -/
def demoWeb : Web where
  corsProxy := none
  encodeURIComponent := id
  fetch target :=
    if target == "https://shop.example/og" then PageFetch.response 200 (pure ogImagePage)
    else if target == "https://shop.example/plain" then PageFetch.response 200 (pure "plain")
    else if target == "https://shop.example/gone" then PageFetch.response 404 (pure "")
    else PageFetch.networkError
  parseFromString text :=
    if text == ogImagePage then Document.ofElements [ogImageMeta] else Document.ofElements []
  resolveURL image link :=
    if image == "a.jpg" && link == some "https://shop.example/og" then
      some "https://shop.example/a.jpg"
    else none

/-! ## Inputs and predicates used in the statements -/

/-- Is the fetch of the catalog a failing outcome: a network error, a status outside
200..299, or a body that `res.json()` rejects. -/
def CatalogFetch.failed : CatalogFetch → Bool
  | .networkError => true
  | .response _ (.error _) => true
  | .response status (.ok _) => !statusOk status

/-- The catalog `[{name:"Café Premium"},{name:"Chá"}]`. -/
def cafeCatalog : List Product :=
  [{ name := some "Café Premium" }, { name := some "Chá" }]

/-- A product whose `image` member is present and is the empty string. -/
def emptyImageProduct : Product :=
  { name := some "x", link := some "https://shop.example/og", image := some "" }

/-- A product with the local image `x.png`. -/
def localImageProduct : Product :=
  { name := some "x", link := some "https://shop.example/og", image := some "x.png" }

/-- The card still has the title, store label and action row `createCard` gave it. -/
def Card.framed (c : Card) (p : Product) : Prop :=
  c.title = orElse p.name "Produto sem nome" ∧
  c.store = orElse p.store "" ∧
  c.href = orElse p.link "#" ∧
  c.details = orElse p.name "Produto" ++ "\n" ++ orElse p.link "Sem link"

/-- A product without image whose link is unreachable. -/
def unreachableProduct : Product :=
  { name := some "x", store := some "s", link := some "https://down.example/" }

/-! ## Lemmas -/

theorem includesFrom_iff (needle hay : List Char) :
    includesFrom needle hay = true ↔ ∃ pre post, hay = pre ++ needle ++ post := by
  induction hay with
  | nil =>
    cases needle with
    | nil => simp [includesFrom]
    | cons a as => simp [includesFrom, List.isPrefixOf]
  | cons c cs ih =>
    rw [includesFrom, Bool.or_eq_true, ih, List.isPrefixOf_iff_prefix]
    constructor
    · rintro (⟨t, ht⟩ | ⟨pre, post, h⟩)
      · exact ⟨[], t, by simp [ht]⟩
      · exact ⟨c :: pre, post, by simp [h]⟩
    · rintro ⟨pre, post, h⟩
      cases pre with
      | nil => exact Or.inl ⟨post, by simpa using h.symm⟩
      | cons d pre =>
        simp only [List.cons_append, List.cons.injEq] at h
        exact Or.inr ⟨pre, post, h.2⟩

theorem includes_iff (s search : String) :
    includes s search = true ↔ ∃ pre post, s.data = pre ++ search.data ++ post :=
  includesFrom_iff search.data s.data

theorem filterItems_products (U : Unicode) (query : String) (ps : List Product) :
    filterItems U query (ps.map Item.product)
      = .ok ((ps.filter fun p => includes (normalizeString U p.name) query).map Item.product) := by
  induction ps with
  | nil => rfl
  | cons p ps ih =>
    simp only [List.map_cons, filterItems, ih, List.filter_cons]
    cases includes (normalizeString U p.name) query <;> rfl

theorem renderCards_products (W : Web) (ps : List Product) :
    renderCards W (ps.map Item.product) = .ok (ps.map (createCard W)) := by
  induction ps with
  | nil => rfl
  | cons p ps ih => simp only [List.map_cons, renderCards, createCardOf, ih]; rfl

theorem normalizeString_empty (U : Unicode) (v : Option String) (h : truthy v = false) :
    normalizeString U v = "" := by
  have hv : orElse v "" = "" := by
    cases v with
    | none => rfl
    | some s =>
      simp only [truthy, bne_eq_false_iff_eq] at h
      simp [orElse, h]
  simp only [normalizeString, hv, U.nfd_empty]
  exact U.toLowerCase_empty

theorem por_of_truthy (a b : Option String) (h : truthy a = true) : por a b = a := by
  simp only [por, h, if_true]

theorem por_of_falsy (a b : Option String) (h : truthy a = false) : por a b = b := by
  simp only [por, h, Bool.false_eq_true, if_false]

theorem truthy_some (s : String) (h : s ≠ "") : truthy (some s) = true := by
  simpa [truthy] using h

theorem pickContent_skip (doc : Document) (pre rest : List String)
    (h : ∀ t ∈ pre, doc.querySelector t = none) :
    pickContent doc (pre ++ rest) = pickContent doc rest := by
  induction pre with
  | nil => rfl
  | cons t pre ih =>
    have ht : doc.querySelector t = none := h t (List.mem_cons_self t pre)
    simp only [List.cons_append, pickContent, ht]
    exact ih fun u hu => h u (List.mem_cons_of_mem t hu)

theorem pickContent_at (doc : Document) (pre post : List String) (sel : String) (node : Node)
    (h : ∀ t ∈ pre, doc.querySelector t = none) (hn : doc.querySelector sel = some node) :
    pickContent doc (pre ++ sel :: post)
      = por (node.getAttribute "content")
          (por (node.getAttribute "value") (por (some node.textContent) none)) := by
  rw [pickContent_skip doc pre (sel :: post) h]
  simp only [pickContent, hn]

theorem settled_ok (out : Except JSError (Option MetaInfo)) (f : Option MetaInfo → Card)
    (g : JSError → Card) :
    tryCatch (out >>= fun data => pure (f data)) (fun err => pure (g err))
      = (.ok (match out with
          | .ok data => f data
          | .error err => g err) : Except JSError Card) := by
  cases out <;> rfl

theorem createCard_settled (W : Web) (p : Product) (h : truthy p.image = false) :
    (createCard W p).settled
      = .ok (match (fetchSeoMeta W p.link).outcome with
          | .ok data => onScraped W p (blankCard p) data
          | .error err => onScrapeFailed (blankCard p) err) := by
  simp only [createCard, h, Bool.false_eq_true, if_false]
  exact settled_ok _ _ _

theorem loadProducts_of_failed (f : CatalogFetch) (h : f.failed = true) :
    loadProducts f = .ok (Json.arr []) := by
  cases f with
  | networkError => rfl
  | response status json =>
    cases hs : statusOk status with
    | true =>
      cases json with
      | error e =>
        simp only [loadProducts, loadProductsTry, hs, Bool.not_true, Bool.false_eq_true,
          if_false]
        rfl
      | ok v => simp [CatalogFetch.failed, hs] at h
    | false =>
      simp only [loadProducts, loadProductsTry, hs, Bool.not_false, if_true]
      rfl

theorem loadProducts_of_ok (status : Nat) (v : Json) (h : statusOk status = true) :
    loadProducts (CatalogFetch.response status (.ok v)) = .ok v := by
  simp only [loadProducts, loadProductsTry, h, Bool.not_true, Bool.false_eq_true, if_false]
  rfl

theorem render_products_ok (W : Web) (ps : List Product) :
    ∃ r, render W (Json.arr (ps.map Item.product)) = .ok r := by
  cases ps with
  | nil => exact ⟨_, rfl⟩
  | cons p ps =>
    refine ⟨Results.cards ((p :: ps).map (createCard W)), ?_⟩
    simp only [render, renderCards_products]
    rfl

/-! ## Filter contract -/

/-- C1: for a query whose normalised form is non-empty, the list `applyFilter` passes to
`render` is the catalog filtered, in order, by "the normalised name contains the
normalised query as a contiguous substring"; on the catalog
`[{name:"Café Premium"},{name:"Chá"}]` and the query `"cafe"` it is the first element. -/
theorem applyFilter_retains_matching :
    (∀ (U : Unicode) (W : Web) (ps : List Product) (q : Option String),
      normalizeString U q ≠ "" →
      ∃ keep : Product → Bool,
        (∀ p, keep p = true ↔
          ∃ pre post,
            (normalizeString U p.name).data = pre ++ (normalizeString U q).data ++ post) ∧
        filtered U (Json.arr (ps.map Item.product)) q
          = .ok (Json.arr ((ps.filter keep).map Item.product)) ∧
        applyFilter U W (Json.arr (ps.map Item.product)) q
          = render W (Json.arr ((ps.filter keep).map Item.product))) ∧
    filtered latin (Json.arr (cafeCatalog.map Item.product)) (some "cafe")
      = .ok (Json.arr [Item.product { name := some "Café Premium" }]) := by
  refine ⟨?_, by decide⟩
  intro U W ps q hq
  have hne : (normalizeString U q == "") = false := by simpa using hq
  have hf : filtered U (Json.arr (ps.map Item.product)) q
      = .ok (Json.arr ((ps.filter fun p =>
          includes (normalizeString U p.name) (normalizeString U q)).map Item.product)) := by
    simp only [filtered, hne, filterItems_products]
    rfl
  refine ⟨fun p => includes (normalizeString U p.name) (normalizeString U q), ?_, hf, ?_⟩
  · intro p
    exact includes_iff _ _
  · simp only [applyFilter, hf]
    rfl

/-- C1, at the catalog `[{name:"Café Premium"},{name:"Chá"}]` and the query `"cafe"`: the
query normalises to a non-empty string and the filtered list keeps exactly the products
whose normalised name contains it. -/
theorem applyFilter_retains_matching_witness :
    normalizeString latin (some "cafe") ≠ "" ∧
    ∃ keep : Product → Bool,
      (∀ p, keep p = true ↔
        ∃ pre post,
          (normalizeString latin p.name).data
            = pre ++ (normalizeString latin (some "cafe")).data ++ post) ∧
      filtered latin (Json.arr (cafeCatalog.map Item.product)) (some "cafe")
        = .ok (Json.arr ((cafeCatalog.filter keep).map Item.product)) ∧
      applyFilter latin demoWeb (Json.arr (cafeCatalog.map Item.product)) (some "cafe")
        = render demoWeb (Json.arr ((cafeCatalog.filter keep).map Item.product)) :=
  ⟨by decide, applyFilter_retains_matching.1 latin demoWeb cafeCatalog (some "cafe") (by decide)⟩

/-- C2: with the empty query `applyFilter` passes `PRODUCTS` itself to `render`, whatever
`PRODUCTS` holds; for an array that is the same elements in the same order, so the same
length. -/
theorem applyFilter_empty_query (U : Unicode) (W : Web) (PRODUCTS : Json) :
    filtered U PRODUCTS (some "") = .ok PRODUCTS ∧
    applyFilter U W PRODUCTS (some "") = render W PRODUCTS ∧
    ∀ items out, PRODUCTS = Json.arr items →
      filtered U PRODUCTS (some "") = .ok (Json.arr out) →
      out = items ∧ out.length = items.length := by
  have hq : normalizeString U (some "") = "" := normalizeString_empty U (some "") rfl
  have hf : filtered U PRODUCTS (some "") = .ok PRODUCTS := by
    simp only [filtered, hq]
    rfl
  refine ⟨hf, ?_, ?_⟩
  · simp only [applyFilter, hf]
    rfl
  · intro items out hP hout
    rw [hf, hP] at hout
    have h : items = out := by
      injection hout with h1
      injection h1
    exact ⟨h.symm, by rw [h]⟩

/-! ## Text normaliser -/

/-- C3: `normalizeString` is the lower-casing of the canonical decomposition of its input
with every diacritic code point removed; `"Café"` and `"cafe"` normalise to the same
string; the empty string and an absent input normalise to the empty string. -/
theorem normalizeString_spec :
    (∀ (U : Unicode) (s : String),
      normalizeString U (some s)
        = U.toLowerCase (String.mk ((U.nfd s).data.filter fun c => U.isDiacritic c = false))) ∧
    normalizeString latin (some "Café") = normalizeString latin (some "cafe") ∧
    normalizeString latin (some "Café") = "cafe" ∧
    (∀ U : Unicode, normalizeString U (some "") = "" ∧ normalizeString U none = "") := by
  refine ⟨?_, by decide, by decide, fun U => ⟨?_, ?_⟩⟩
  · intro U s
    have hs : orElse (some s) "" = s := by
      by_cases h : s = ""
      · simp [orElse, h]
      · simp [orElse, h]
    simp only [normalizeString, hs, removeDiacritics]
    congr 2
    apply List.filter_congr
    intro c _
    cases U.isDiacritic c <;> rfl
  · exact normalizeString_empty U (some "") rfl
  · exact normalizeString_empty U none rfl

/-! ## Catalog loader -/

/-- C4: after a failing fetch of the catalog (network error, status outside 200..299, or a
body that is not JSON) `loadProducts` settles without a rejection with `PRODUCTS = []`,
and the `render` that follows in `init` shows the "no products found" markup. -/
theorem loadProducts_failure (W : Web) (f : CatalogFetch) (h : f.failed = true) :
    loadProducts f = .ok (Json.arr []) ∧
    init W f = .ok (Results.html noProductsMarkup) := by
  have hl : loadProducts f = .ok (Json.arr []) := loadProducts_of_failed f h
  refine ⟨hl, ?_⟩
  simp only [init, hl]
  rfl

/-- C4 at three failing outcomes: no response, a 404 response, a 200 response whose body
is not JSON. -/
theorem loadProducts_failure_witness :
    (loadProducts CatalogFetch.networkError = .ok (Json.arr []) ∧
      init demoWeb CatalogFetch.networkError = .ok (Results.html noProductsMarkup)) ∧
    (loadProducts (CatalogFetch.response 404 (.ok (Json.arr [Item.product {}])))
        = .ok (Json.arr []) ∧
      init demoWeb (CatalogFetch.response 404 (.ok (Json.arr [Item.product {}])))
        = .ok (Results.html noProductsMarkup)) ∧
    (loadProducts (CatalogFetch.response 200 (.error JSError.syntaxError)) = .ok (Json.arr []) ∧
      init demoWeb (CatalogFetch.response 200 (.error JSError.syntaxError))
        = .ok (Results.html noProductsMarkup)) :=
  ⟨loadProducts_failure demoWeb _ rfl, loadProducts_failure demoWeb _ rfl,
    loadProducts_failure demoWeb _ rfl⟩

/-! ## Card renderer: local image -/

/-- C5 as stated fails: the product `{name:"x", link:"https://shop.example/og", image:""}`
has its image field present, yet `createCard` calls `fetchSeoMeta` on the link, a request
goes out and the returned thumbnail is the loading label, not an image. -/
theorem createCard_empty_image_scrapes :
    emptyImageProduct.image = some "" ∧
    (createCard demoWeb emptyImageProduct).scrapeCalls = [some "https://shop.example/og"] ∧
    (createCard demoWeb emptyImageProduct).requests = ["https://shop.example/og"] ∧
    (createCard demoWeb emptyImageProduct).returned.thumb = Thumb.text "Carregando imagem..." ∧
    ¬ ∀ (W : Web) (p : Product) (file : String), p.image = some file →
        (createCard W p).scrapeCalls = [] ∧ (createCard W p).requests = [] := by
  refine ⟨rfl, by decide, by decide, by decide, ?_⟩
  intro h
  have h2 := (h demoWeb emptyImageProduct "" rfl).2
  revert h2
  decide

/-- C5 amended: for a product whose image field is a non-empty string, `createCard` never
calls `fetchSeoMeta`, no request goes out, and the thumbnail holds the image whose source
is `"src/img/"` followed by the file name, from the moment the card is returned. -/
theorem createCard_local_image (W : Web) (p : Product) (file : String)
    (h : p.image = some file) (hne : file ≠ "") :
    (createCard W p).scrapeCalls = [] ∧
    (createCard W p).requests = [] ∧
    (createCard W p).returned.thumb
      = Thumb.img { src := "src/img/" ++ file, alt := orElse p.name "Produto" } ∧
    (createCard W p).settled = .ok (createCard W p).returned := by
  have ht : truthy p.image = true := by simp [h, truthy, hne]
  have ho : orElse p.image "" = file := by simp [h, orElse, hne]
  simp [createCard, ht, ho, pure, Except.pure]

/-- C5 amended, at the product `{name:"x", link:"https://shop.example/og", image:"x.png"}`. -/
theorem createCard_local_image_witness :
    localImageProduct.image = some "x.png" ∧
    (createCard demoWeb localImageProduct).scrapeCalls = [] ∧
    (createCard demoWeb localImageProduct).requests = [] ∧
    (createCard demoWeb localImageProduct).returned.thumb
      = Thumb.img { src := "src/img/x.png", alt := "x" } ∧
    (createCard demoWeb localImageProduct).settled
      = .ok (createCard demoWeb localImageProduct).returned :=
  ⟨rfl, createCard_local_image demoWeb localImageProduct "x.png" rfl (by decide)⟩

/-! ## Card renderer: scraped image -/

/-- C6: for a product without a (truthy) image, `createCard` calls `fetchSeoMeta` on the
link and the settled thumbnail is decided by the outcome of the scrape: a scraped image
gives an `img` whose source is the resolved URL, or the scraped string when resolution
throws; a scrape without image gives the label "Sem imagem (uso manual)"; a rejected
scrape (in particular no response, or a status outside 200..299) gives the label "Imagem
indisponível (CORS)".  In each case the chain settles without rejection and the card
keeps its title, store label and action row. -/
theorem createCard_scrape_outcomes (W : Web) (p : Product) (h : truthy p.image = false) :
    (createCard W p).scrapeCalls = [p.link] ∧
    (∀ (d : MetaInfo) (src : String),
      (fetchSeoMeta W p.link).outcome = .ok (some d) → d.image = some src → src ≠ "" →
      ∃ c, (createCard W p).settled = .ok c ∧ c.framed p ∧
        c.thumb = Thumb.img
          { alt := orElse p.name "Produto"
            src := match W.resolveURL src p.link with
              | some resolved => resolved
              | none => src }) ∧
    (∀ d : Option MetaInfo,
      (fetchSeoMeta W p.link).outcome = .ok d → truthy (d.bind fun m => m.image) = false →
      ∃ c, (createCard W p).settled = .ok c ∧ c.framed p ∧
        c.thumb = Thumb.text "Sem imagem (uso manual)") ∧
    (∀ e : JSError, (fetchSeoMeta W p.link).outcome = .error e →
      ∃ c, (createCard W p).settled = .ok c ∧ c.framed p ∧
        c.thumb = Thumb.text "Imagem indisponível (CORS)") ∧
    (∀ link : String, p.link = some link → link ≠ "" →
      (W.fetch (scrapeTarget W link) = PageFetch.networkError ∨
        ∃ status text, W.fetch (scrapeTarget W link) = PageFetch.response status text ∧
          statusOk status = false) →
      ∃ e, (fetchSeoMeta W p.link).outcome = .error e) := by
  have hs := createCard_settled W p h
  refine ⟨?_, ?_, ?_, ?_, ?_⟩
  · simp [createCard, h]
  · intro d src hd hi hne
    rw [hd] at hs
    refine ⟨_, hs, ?_, ?_⟩
    · simp only [onScraped, Option.bind, hi]
      cases hp : d.price with
      | none => simp [hne, blankCard, Card.framed]
      | some amount => by_cases ha : amount = "" <;> simp [hne, ha, blankCard, Card.framed]
    · simp only [onScraped, Option.bind, hi]
      cases hp : d.price with
      | none => cases W.resolveURL src p.link <;> simp [hne]
      | some amount =>
        by_cases ha : amount = "" <;> cases W.resolveURL src p.link <;> simp [hne, ha]
  · intro d hd hi
    rw [hd] at hs
    have hthumb : ∀ c : Card,
        (match d.bind (fun m => m.image) with
          | some src =>
            if src != "" then
              { c with
                thumb := Thumb.img
                  { alt := orElse p.name "Produto"
                    src := (W.resolveURL src p.link).getD src } }
            else { c with thumb := Thumb.text "Sem imagem (uso manual)" }
          | none => { c with thumb := Thumb.text "Sem imagem (uso manual)" })
          = { c with thumb := Thumb.text "Sem imagem (uso manual)" } := by
      intro c
      cases hb : d.bind (fun m => m.image) with
      | none => rfl
      | some src =>
        rw [hb] at hi
        have : src = "" := by simpa [truthy] using hi
        simp [this]
    refine ⟨_, hs, ?_, ?_⟩
    · simp only [onScraped, hthumb]
      cases hp : d.bind (fun m => m.price) with
      | none => simp [blankCard, Card.framed]
      | some amount => by_cases ha : amount = "" <;> simp [ha, blankCard, Card.framed]
    · simp only [onScraped, hthumb]
      cases hp : d.bind (fun m => m.price) with
      | none => rfl
      | some amount => by_cases ha : amount = "" <;> simp [ha]
  · intro e he
    rw [he] at hs
    exact ⟨_, hs, by simp [onScrapeFailed, blankCard, Card.framed], rfl⟩
  · intro link hl hne hfail
    have hne2 : (link == "") = false := by simpa using hne
    rcases hfail with hnet | ⟨status, text, hresp, hst⟩
    · exact ⟨JSError.network, by simp only [hl, fetchSeoMeta, hne2, hnet]; rfl⟩
    · exact ⟨JSError.error "fetch erro " status, by
        simp only [hl, fetchSeoMeta, hne2, hresp, hst]; rfl⟩

/-- C6 at the product `{name:"x", store:"s", link:"https://down.example/"}`, whose link is
unreachable: the thumbnail ends as the "unavailable" label and the card keeps its title,
store label and action row. -/
theorem createCard_scrape_outcomes_witness :
    truthy unreachableProduct.image = false ∧
    ∃ c, (createCard demoWeb unreachableProduct).settled = .ok c ∧ c.framed unreachableProduct ∧
      c.thumb = Thumb.text "Imagem indisponível (CORS)" :=
  ⟨rfl, (createCard_scrape_outcomes demoWeb unreachableProduct rfl).2.2.2.1 JSError.network
    (by decide)⟩

/-! ## Meta scraper: absent link -/

/-- C8: for an absent link (`null` or `undefined`), and likewise for the empty string,
`fetchSeoMeta` resolves to `null` and passes nothing to `fetch`. -/
theorem fetchSeoMeta_absent_link (W : Web) :
    (fetchSeoMeta W none).outcome = .ok none ∧
    (fetchSeoMeta W none).requests = [] ∧
    (fetchSeoMeta W (some "")).outcome = .ok none ∧
    (fetchSeoMeta W (some "")).requests = [] :=
  ⟨rfl, rfl, rfl, rfl⟩

/-! ## Meta scraper: selector priority -/

/-- C7: `pickContent` returns `null` when no selector of the list matches; otherwise the
first selector of the list that matches decides, and the result is the first non-empty of
the matched node's `content` attribute, `value` attribute and text content.  The image
field uses the five selectors in the order og:image property, og:image name, twitter:image
name, twitter:image property, link rel=image_src, so a document whose only element is
`<meta property="og:image" content="a.jpg">` yields the image `"a.jpg"`, also through
`fetchSeoMeta`, and og:image wins over an earlier twitter:image element. -/
theorem pickContent_first_match :
    (∀ (doc : Document) (sels : List String),
      (∀ s ∈ sels, doc.querySelector s = none) → pickContent doc sels = none) ∧
    (∀ (doc : Document) (pre post : List String) (sel : String) (node : Node),
      (∀ t ∈ pre, doc.querySelector t = none) → doc.querySelector sel = some node →
      (∀ c, node.getAttribute "content" = some c → c ≠ "" →
        pickContent doc (pre ++ sel :: post) = some c) ∧
      (∀ v, truthy (node.getAttribute "content") = false →
        node.getAttribute "value" = some v → v ≠ "" →
        pickContent doc (pre ++ sel :: post) = some v) ∧
      (truthy (node.getAttribute "content") = false →
        truthy (node.getAttribute "value") = false → node.textContent ≠ "" →
        pickContent doc (pre ++ sel :: post) = some node.textContent)) ∧
    (∀ doc : Document,
      (extractMetas doc).image
        = pickContent doc
            [ "meta[property=\"og:image\"]", "meta[name=\"og:image\"]",
              "meta[name=\"twitter:image\"]", "meta[property=\"twitter:image\"]",
              "link[rel=\"image_src\"]" ]) ∧
    (extractMetas (Document.ofElements [ogImageMeta])).image = some "a.jpg" ∧
    (extractMetas (Document.ofElements [twitterImageMeta, ogImageMeta])).image = some "a.jpg" ∧
    (fetchSeoMeta demoWeb (some "https://shop.example/og")).outcome
      = .ok (some { image := some "a.jpg", price := none, description := none }) := by
  refine ⟨?_, ?_, fun _ => rfl, by decide, by decide, by decide⟩
  · intro doc sels h
    have := pickContent_skip doc sels [] h
    simpa [pickContent] using this
  · intro doc pre post sel node hpre hsel
    have hp := pickContent_at doc pre post sel node hpre hsel
    refine ⟨?_, ?_, ?_⟩
    · intro c hc hne
      rw [hp, hc, por_of_truthy _ _ (truthy_some c hne)]
    · intro v hc hv hne
      rw [hp, por_of_falsy _ _ hc, hv, por_of_truthy _ _ (truthy_some v hne)]
    · intro hc hv hne
      rw [hp, por_of_falsy _ _ hc, por_of_falsy _ _ hv,
        por_of_truthy _ _ (truthy_some _ hne)]

/-- C7 on the document `<meta name="twitter:image" content="t.jpg">`: the first two image
selectors do not match, the third does, and its `content` is returned. -/
theorem pickContent_first_match_witness :
    pickContent (Document.ofElements [twitterImageMeta])
        (["meta[property=\"og:image\"]", "meta[name=\"og:image\"]"]
          ++ "meta[name=\"twitter:image\"]"
            :: ["meta[property=\"twitter:image\"]", "link[rel=\"image_src\"]"])
      = some "t.jpg" :=
  (pickContent_first_match.2.1 (Document.ofElements [twitterImageMeta])
      ["meta[property=\"og:image\"]", "meta[name=\"og:image\"]"]
      ["meta[property=\"twitter:image\"]", "link[rel=\"image_src\"]"]
      "meta[name=\"twitter:image\"]" twitterImageMeta.node (by decide) (by decide)).1
    "t.jpg" (by decide) (by decide)

/-! ## Meta scraper: a match that yields nothing -/

theorem imageSrcLink_image (U : String) :
    (extractMetas (Document.ofElements [imageSrcLink U])).image = none := by
  have hmeta : ∀ rest x : String, ("meta" ++ rest == "link" ++ x) = false := by
    intro rest x
    rw [beq_eq_false_iff_ne]
    intro h
    have := congrArg String.data h
    simp at this
  have h1 : ∀ rest : String,
      (Document.ofElements [imageSrcLink U]).querySelector ("meta" ++ rest) = none := by
    intro rest
    have hm : Element.isMatch ("meta" ++ rest) (imageSrcLink U) = false := by
      simp only [Element.isMatch, imageSrcLink, List.any_cons, List.any_nil, hmeta]
      rfl
    simp only [Document.ofElements, List.find?, hm]
    rfl
  have h5 : (Document.ofElements [imageSrcLink U]).querySelector "link[rel=\"image_src\"]"
      = some (imageSrcLink U).node := by
    have hm : Element.isMatch "link[rel=\"image_src\"]" (imageSrcLink U) = true := by
      have hrel : ("link[rel=\"image_src\"]"
          == "link" ++ ("[" ++ ("rel" ++ ("=\"" ++ ("image_src" ++ "\"]"))))) = true := by decide
      simp only [Element.isMatch, imageSrcLink, List.any_cons, hrel, Bool.true_or]
    simp only [Document.ofElements, List.find?, hm]
    rfl
  have hpre : ∀ t ∈ ["meta" ++ "[property=\"og:image\"]", "meta" ++ "[name=\"og:image\"]",
      "meta" ++ "[name=\"twitter:image\"]", "meta" ++ "[property=\"twitter:image\"]"],
      (Document.ofElements [imageSrcLink U]).querySelector t = none := by
    intro t ht
    simp only [List.mem_cons, List.mem_singleton, List.not_mem_nil, or_false] at ht
    rcases ht with rfl | rfl | rfl | rfl <;> exact h1 _
  have hp := pickContent_at _ _ [] _ _ hpre h5
  have hsel : imageSelectors
      = ["meta" ++ "[property=\"og:image\"]", "meta" ++ "[name=\"og:image\"]",
          "meta" ++ "[name=\"twitter:image\"]", "meta" ++ "[property=\"twitter:image\"]"]
        ++ "link[rel=\"image_src\"]" :: [] := by decide
  simp only [extractMetas, hsel, hp]
  have hc : (imageSrcLink U).node.getAttribute "content" = none := by
    simp [imageSrcLink, Node.getAttribute, List.lookup]
  have hv : (imageSrcLink U).node.getAttribute "value" = none := by
    simp [imageSrcLink, Node.getAttribute, List.lookup]
  rw [hc, hv]
  rfl

/-- C10: when the first selector that matches finds a node with no (or an empty) `content`
attribute, no (or an empty) `value` attribute and empty text, `pickContent` returns `null`
whatever the later selectors would match; so a document whose only image-bearing element
is `<link rel="image_src" href=U>` has a `null` image for every `U`, and a bare
`<meta property="og:image">` hides a later `<meta name="twitter:image" content="t.jpg">`. -/
theorem pickContent_stops_at_empty_match :
    (∀ (doc : Document) (pre post : List String) (sel : String) (node : Node),
      (∀ t ∈ pre, doc.querySelector t = none) → doc.querySelector sel = some node →
      truthy (node.getAttribute "content") = false →
      truthy (node.getAttribute "value") = false → node.textContent = "" →
      pickContent doc (pre ++ sel :: post) = none) ∧
    (∀ U : String, (extractMetas (Document.ofElements [imageSrcLink U])).image = none) ∧
    (extractMetas (Document.ofElements [bareOgImageMeta, twitterImageMeta])).image = none ∧
    (extractMetas (Document.ofElements [twitterImageMeta])).image = some "t.jpg" := by
  refine ⟨?_, imageSrcLink_image, by decide, by decide⟩
  intro doc pre post sel node hpre hsel hc hv ht
  rw [pickContent_at doc pre post sel node hpre hsel, por_of_falsy _ _ hc, por_of_falsy _ _ hv,
    ht]
  rfl

/-- C10 on the document `<meta property="og:image"><meta name="twitter:image"
content="t.jpg">`: the first image selector matches the bare element, so the image is
`null` although the third selector would find `"t.jpg"`. -/
theorem pickContent_stops_at_empty_match_witness :
    (Document.ofElements [bareOgImageMeta, twitterImageMeta]).querySelector
        "meta[name=\"twitter:image\"]" = some twitterImageMeta.node ∧
    pickContent (Document.ofElements [bareOgImageMeta, twitterImageMeta])
        ([] ++ "meta[property=\"og:image\"]"
          :: ["meta[name=\"og:image\"]", "meta[name=\"twitter:image\"]",
              "meta[property=\"twitter:image\"]", "link[rel=\"image_src\"]"])
      = none :=
  ⟨by decide,
    pickContent_stops_at_empty_match.1 (Document.ofElements [bareOgImageMeta, twitterImageMeta])
      [] _ "meta[property=\"og:image\"]" bareOgImageMeta.node (by decide) (by decide)
      (by decide) (by decide) (by decide)⟩

/-! ## Catalog loader: what the caller holds -/

/-- C9 as stated fails: a 200 response whose body is the JSON object `{}` leaves `PRODUCTS`
holding that object, not a list, and `applyFilter("a")` then throws a `TypeError` at
`PRODUCTS.filter`; a body `[null]` makes `render(PRODUCTS)` throw. -/
theorem loadProducts_object_body_breaks_applyFilter :
    loadProducts (CatalogFetch.response 200 (.ok Json.object)) = .ok Json.object ∧
    applyFilter latin demoWeb Json.object (some "a")
      = .error (JSError.typeError "PRODUCTS.filter is not a function") ∧
    loadProducts (CatalogFetch.response 200 (.ok (Json.arr [Item.null])))
      = .ok (Json.arr [Item.null]) ∧
    render demoWeb (Json.arr [Item.null])
      = .error (JSError.typeError "Cannot read properties of null (reading 'name')") ∧
    ¬ ∀ (f : CatalogFetch) (q : Option String) (P : Json), loadProducts f = .ok P →
        (∃ items, P = Json.arr items) ∧ (∃ r, render demoWeb P = .ok r) ∧
          ∃ r, applyFilter latin demoWeb P q = .ok r := by
  refine ⟨by decide, by decide, by decide, by decide, ?_⟩
  intro h
  obtain ⟨⟨items, hitems⟩, _⟩ :=
    h (CatalogFetch.response 200 (.ok Json.object)) (some "a") Json.object (by decide)
  cases hitems

/-- C9 amended: for every outcome of the catalog fetch `loadProducts` settles without a
rejection.  After a failing outcome `PRODUCTS` is the empty list; after a 2xx response with
a JSON body it is the decoded body as it is.  When `PRODUCTS` is an array of product
objects (every field a string or absent), `render(PRODUCTS)` and `applyFilter(q)` for every
`q` complete without throwing; when it is not an array, `render(PRODUCTS)` shows the "no
products found" markup. -/
theorem loadProducts_usable (U : Unicode) (W : Web) (f : CatalogFetch) :
    ∃ P : Json, loadProducts f = .ok P ∧
      (f.failed = true → P = Json.arr []) ∧
      (∀ status v, f = CatalogFetch.response status (.ok v) → statusOk status = true → P = v) ∧
      (∀ ps : List Product, P = Json.arr (ps.map Item.product) →
        (∃ r, render W P = .ok r) ∧ ∀ q, ∃ r, applyFilter U W P q = .ok r) ∧
      ((∀ items, P ≠ Json.arr items) → render W P = .ok (Results.html noProductsMarkup)) := by
  have hload : ∃ P : Json, loadProducts f = .ok P ∧
      (f.failed = true → P = Json.arr []) ∧
      (∀ status v, f = CatalogFetch.response status (.ok v) → statusOk status = true →
        P = v) := by
    cases hf : f.failed with
    | true =>
      refine ⟨Json.arr [], loadProducts_of_failed f hf, fun _ => rfl, ?_⟩
      intro status v hfv hs
      rw [hfv] at hf
      simp [CatalogFetch.failed, hs] at hf
    | false =>
      cases f with
      | networkError => simp [CatalogFetch.failed] at hf
      | response status json =>
        cases json with
        | error e => simp [CatalogFetch.failed] at hf
        | ok v =>
          have hs : statusOk status = true := by simpa [CatalogFetch.failed] using hf
          refine ⟨v, loadProducts_of_ok status v hs, fun h => by simp at h, ?_⟩
          intro status2 v2 h2 _
          injection h2 with _ h3
          injection h3
  obtain ⟨P, hP, hfail, hbody⟩ := hload
  refine ⟨P, hP, hfail, hbody, ?_, ?_⟩
  · intro ps hps
    subst hps
    refine ⟨render_products_ok W ps, fun q => ?_⟩
    cases hq : normalizeString U q == "" with
    | true =>
      obtain ⟨r, hr⟩ := render_products_ok W ps
      refine ⟨r, ?_⟩
      simp only [applyFilter, filtered, hq, if_true]
      exact hr
    | false =>
      obtain ⟨r, hr⟩ := render_products_ok W
        (ps.filter fun p => includes (normalizeString U p.name) (normalizeString U q))
      refine ⟨r, ?_⟩
      simp only [applyFilter, filtered, hq, Bool.false_eq_true, if_false, filterItems_products]
      exact hr
  · intro hna
    cases P with
    | arr items => exact absurd rfl (hna items)
    | _ => rfl

/-- C9 amended, at a 200 response with the catalog `[{name:"Café Premium"},{name:"Chá"}]`:
`PRODUCTS` is that catalog, and `render` and `applyFilter("cafe")` complete. -/
theorem loadProducts_usable_witness :
    ∃ P : Json,
      loadProducts (CatalogFetch.response 200 (.ok (Json.arr (cafeCatalog.map Item.product))))
        = .ok P ∧
      P = Json.arr (cafeCatalog.map Item.product) ∧
      (∃ r, render demoWeb P = .ok r) ∧
      ∃ r, applyFilter latin demoWeb P (some "cafe") = .ok r := by
  obtain ⟨P, hP, _, hbody, hprod, _⟩ := loadProducts_usable latin demoWeb
    (CatalogFetch.response 200 (.ok (Json.arr (cafeCatalog.map Item.product))))
  have hPv := hbody 200 _ rfl (by decide)
  exact ⟨P, hP, hPv, (hprod cafeCatalog hPv).1, (hprod cafeCatalog hPv).2 (some "cafe")⟩

end Store
